import Mathlib

/-!
Verification of the orca OCR-archive pipeline (shallow embedding).

Each definition below embeds one function or data structure of the source
tree (`orca/helpers.py`, `orca/model/*.py`, `orca/tasks/*.py`); theorems
check the natural-language specification against these embeddings.

Machine integers are modelled as `Nat` with explicit masks where Python's
`zlib`/formatting semantics need them; Python floats appearing in progress
accounting are modelled as `Rat` (every value the code computes here is an
exact small rational, and the facts proved are robust to rounding);
fallible code returns `Except`/`Option`.
-/

namespace Orca

/-! ## `orca/helpers.py` -/

/-- The reflected CRC-32 polynomial used by `zlib.crc32`. -/
def crc32Poly : Nat := 0xEDB88320

/-- One bit-step of the reflected CRC-32: shift right, conditionally xor
the polynomial (this is the table-free form of the `zlib` algorithm). -/
def crc32ShiftBit (crc : Nat) : Nat :=
  if crc % 2 = 1 then (crc / 2) ^^^ crc32Poly else crc / 2

/-- Absorb one byte into the running CRC: xor it in, then do 8 bit-steps. -/
def crc32Byte (crc b : Nat) : Nat :=
  crc32ShiftBit^[8] (crc ^^^ (b % 256))

/-- `zlib.crc32(data)`: initial value `0xFFFFFFFF`, absorb all bytes,
final complement. -/
def crc32 (data : List Nat) : Nat :=
  (data.foldl crc32Byte 0xFFFFFFFF) ^^^ 0xFFFFFFFF

/-- UTF-8 bytes of a Python `str` (what `data.encode()` produces in
`create_checksum`). -/
def strBytes (s : String) : List Nat :=
  s.toUTF8.toList.map (fun b => b.toNat)

/-- Hex digit character for a nibble, lowercase as Python's `x` format. -/
def hexDigitChar (n : Nat) : Char :=
  if n < 10 then Char.ofNat (48 + n) else Char.ofNat (87 + n)

/-- Accumulate the hex digits of `n` (most significant first). -/
def natToHexAux : Nat → List Char → List Char
  | 0, acc => acc
  | n + 1, acc => natToHexAux ((n + 1) / 16) (hexDigitChar ((n + 1) % 16) :: acc)
decreasing_by exact Nat.div_lt_self (Nat.succ_pos n) (by decide)

/-- Lowercase hex rendering of `n`, as Python's `format(n, "x")`. -/
def natToHex (n : Nat) : String :=
  if n = 0 then "0" else String.mk (natToHexAux n [])

/-- Left-pad with `'0'` to width 8, as Python's `"08x"` format width. -/
def padZero8 (s : String) : String :=
  String.mk (List.replicate (8 - s.length) '0') ++ s

/-- `helpers.create_checksum`: encode the string, take
`zlib.crc32(data) & 0xFFFFFFFF`, render as `f"{checksum:08x}"`. -/
def create_checksum (data : String) : String :=
  padZero8 (natToHex (crc32 (strBytes data) &&& 0xFFFFFFFF))

/-- `helpers.do`: commit/log gate for batch processing. `n` is the
zero-based iteration index, `n_max` the total count. -/
def do_batch (n n_max batch_size : Nat) : Bool :=
  (n == 0) || ((n + 1) % batch_size == 0) || (n + 1 == n_max)

/-! ## `orca/model/document.py` -/

/-- A `Document` row: the columns the claims depend on. `created_at` is a
UTC timestamp modelled as `Nat`. -/
structure Document where
  guid : String
  created_at : Nat
  text_path : String
  deriving Repr, DecidableEq

/-- `Document.get_text`: reads `data_path / text_path` and returns
`unidecode(text.strip())`, or `""` when the file cannot be read.  The file
system is abstracted as a partial map `fs` from the relative `text_path`
to the transliterated, stripped text of a readable file; an unreadable or
missing file maps to `none`, which the `except` handler turns into `""`.
`get_text_async` (referenced by `Corpus.create` and absent from the model
sources) is, per the spec and the sync `get_text`, the same read. -/
def Document.get_text (fs : String → Option String) (d : Document) : String :=
  match fs d.text_path with
  | some text => text
  | none => ""

/-- `documents.sort(key=lambda doc: doc.created_at)`: Python's stable
ascending sort, embedded as the stable `List.mergeSort`. -/
def sortByCreatedAt (documents : List Document) : List Document :=
  documents.mergeSort (fun a b => decide (a.created_at ≤ b.created_at))

/-! ## `orca/model/corpus.py` -/

/-- A `Corpus` row: checksum, linked documents, denormalized count. -/
structure Corpus where
  checksum : String
  documents : List Document
  document_count : Nat
  deriving Repr, DecidableEq

/-- `Corpus.create`: fetch all documents, sort ascending by `created_at`,
concatenate each document's text, checksum the concatenation, and persist
a row linking the documents with the denormalized count. -/
def Corpus.create (fs : String → Option String) (documents : List Document) : Corpus :=
  let document_count := documents.length
  let sorted := sortByCreatedAt documents
  let raw := String.join (sorted.map (Document.get_text fs))
  { checksum := create_checksum raw
    documents := sorted
    document_count := document_count }

/-! ## Arithmetic facts about the checksum rendering -/

/-- The hex alphabet of Python's lowercase `x` format. -/
def hexChars : List Char := "0123456789abcdef".data

theorem crc32ShiftBit_lt {crc : Nat} (h : crc < 2 ^ 32) : crc32ShiftBit crc < 2 ^ 32 := by
  unfold crc32ShiftBit
  have hdiv : crc / 2 < 2 ^ 32 := lt_of_le_of_lt (Nat.div_le_self _ _) h
  split
  · exact Nat.xor_lt_two_pow hdiv (by norm_num [crc32Poly])
  · exact hdiv

theorem crc32ShiftBit_iter_lt {crc : Nat} (h : crc < 2 ^ 32) (k : Nat) :
    crc32ShiftBit^[k] crc < 2 ^ 32 := by
  induction k generalizing crc with
  | zero => simpa using h
  | succ k ih =>
      rw [Function.iterate_succ_apply]
      exact ih (crc32ShiftBit_lt h)

theorem crc32Byte_lt {crc : Nat} (h : crc < 2 ^ 32) (b : Nat) : crc32Byte crc b < 2 ^ 32 :=
  crc32ShiftBit_iter_lt
    (Nat.xor_lt_two_pow h (lt_of_lt_of_le (Nat.mod_lt b (by decide)) (by norm_num))) 8

theorem crc32_foldl_lt (data : List Nat) : ∀ {crc : Nat}, crc < 2 ^ 32 →
    data.foldl crc32Byte crc < 2 ^ 32 := by
  induction data with
  | nil => intro crc h; simpa using h
  | cons b rest ih => intro crc h; exact ih (crc32Byte_lt h b)

theorem crc32_lt (data : List Nat) : crc32 data < 2 ^ 32 := by
  unfold crc32
  exact Nat.xor_lt_two_pow (crc32_foldl_lt data (by norm_num)) (by norm_num)

theorem natToHexAux_length : ∀ (k n : Nat) (acc : List Char), n < 16 ^ k →
    (natToHexAux n acc).length ≤ k + acc.length := by
  intro k
  induction k with
  | zero =>
      intro n acc h
      interval_cases n
      simp [natToHexAux]
  | succ k ih =>
      intro n acc h
      match n with
      | 0 => simp [natToHexAux]
      | m + 1 =>
          rw [natToHexAux]
          have h2 : (m + 1) / 16 < 16 ^ k :=
            (Nat.div_lt_iff_lt_mul (by norm_num)).mpr (by rw [← pow_succ]; exact h)
          have := ih ((m + 1) / 16) (hexDigitChar ((m + 1) % 16) :: acc) h2
          simp only [List.length_cons] at this
          omega

theorem natToHex_length_le {n : Nat} (h : n < 2 ^ 32) : (natToHex n).length ≤ 8 := by
  unfold natToHex
  split
  · decide
  · have h16 : n < 16 ^ 8 := by norm_num at h ⊢; omega
    have := natToHexAux_length 8 n [] h16
    simpa [String.length] using this

theorem padZero8_length {s : String} (h : s.length ≤ 8) : (padZero8 s).length = 8 := by
  unfold padZero8
  rw [String.length_append]
  show (List.replicate (8 - s.length) '0').length + s.length = 8
  rw [List.length_replicate]
  omega

theorem create_checksum_length (data : String) : (create_checksum data).length = 8 := by
  unfold create_checksum
  apply padZero8_length
  apply natToHex_length_le
  exact lt_of_le_of_lt Nat.and_le_left (crc32_lt (strBytes data))

theorem hexDigitChar_mem {n : Nat} (h : n < 16) : hexDigitChar n ∈ hexChars := by
  interval_cases n <;> decide

theorem natToHexAux_chars (n : Nat) : ∀ (acc : List Char), (∀ c ∈ acc, c ∈ hexChars) →
    ∀ c ∈ natToHexAux n acc, c ∈ hexChars := by
  induction n using Nat.strong_induction_on with
  | _ n ih =>
      match n with
      | 0 =>
          intro acc hacc c hc
          rw [natToHexAux] at hc
          exact hacc c hc
      | m + 1 =>
          intro acc hacc c hc
          rw [natToHexAux] at hc
          refine ih ((m + 1) / 16) (Nat.div_lt_self (Nat.succ_pos m) (by decide)) _ ?_ c hc
          intro d hd
          rcases List.mem_cons.mp hd with h | h
          · subst h; exact hexDigitChar_mem (Nat.mod_lt _ (by decide))
          · exact hacc d h

theorem create_checksum_chars (data : String) :
    ∀ c ∈ (create_checksum data).data, c ∈ hexChars := by
  unfold create_checksum padZero8
  intro c hc
  rw [String.data_append] at hc
  rcases List.mem_append.mp hc with h | h
  · simp only [String.mk] at h
    have := List.eq_of_mem_replicate h
    subst this
    decide
  · unfold natToHex at h
    split at h
    · have h0 : c ∈ ['0'] := h
      rw [List.mem_singleton] at h0
      subst h0
      decide
    · exact natToHexAux_chars _ [] (by simp) c h

/-! ## C1: `Corpus.create` computes the ordered-text CRC32 snapshot -/

/-- C1: for every file system and every list of documents in the database,
the corpus created by `Corpus.create` has: checksum equal to the CRC32
(rendered as exactly 8 lowercase hex digits) of the concatenated text of
its member documents, those members being the input documents arranged in
ascending `created_at` order; `document_count` equal to the number of
documents; and links to exactly the input documents.  Re-running it on the
unchanged database yields the same checksum. -/
theorem corpus_create_spec (fs : String → Option String) (documents : List Document) :
    (Corpus.create fs documents).checksum
        = create_checksum
            (String.join ((Corpus.create fs documents).documents.map (Document.get_text fs)))
    ∧ List.Pairwise (fun a b : Document => a.created_at ≤ b.created_at)
        (Corpus.create fs documents).documents
    ∧ (Corpus.create fs documents).documents.Perm documents
    ∧ (Corpus.create fs documents).document_count = documents.length
    ∧ (Corpus.create fs documents).checksum.length = 8
    ∧ (∀ c ∈ (Corpus.create fs documents).checksum.data, c ∈ hexChars)
    ∧ (∀ fs2 docs2, fs2 = fs → docs2 = documents →
        (Corpus.create fs2 docs2).checksum = (Corpus.create fs documents).checksum) := by
  refine ⟨rfl, ?_, ?_, rfl, create_checksum_length _, create_checksum_chars _, ?_⟩
  · have hs := @List.sorted_mergeSort Document
      (fun a b => decide (a.created_at ≤ b.created_at))
      (fun a b c => by simp only [decide_eq_true_eq]; omega)
      (fun a b => by simp only [Bool.or_eq_true, decide_eq_true_eq]; omega)
      documents
    exact hs.imp (fun h => of_decide_eq_true h)
  · exact List.mergeSort_perm documents _
  · intro fs2 docs2 h1 h2
    rw [h1, h2]

/-- Witness for C1 at a concrete database of two documents (deliberately
given out of `created_at` order): the checksum is the CRC32 of the texts
joined in ascending `created_at` order, the count is 2, and the
determinism hypotheses are discharged at this input. -/
theorem corpus_create_spec_witness :
    (Corpus.create
        (fun p => if p = "a.txt" then some "Hello" else if p = "b.txt" then some "World" else none)
        [{ guid := "g2", created_at := 5, text_path := "b.txt" },
         { guid := "g1", created_at := 1, text_path := "a.txt" }]).checksum
      = create_checksum "HelloWorld"
    ∧ (Corpus.create
        (fun p => if p = "a.txt" then some "Hello" else if p = "b.txt" then some "World" else none)
        [{ guid := "g2", created_at := 5, text_path := "b.txt" },
         { guid := "g1", created_at := 1, text_path := "a.txt" }]).document_count = 2 := by
  have h := corpus_create_spec
    (fun p => if p = "a.txt" then some "Hello" else if p = "b.txt" then some "World" else none)
    [{ guid := "g2", created_at := 5, text_path := "b.txt" },
     { guid := "g1", created_at := 1, text_path := "a.txt" }]
  have hdet := h.2.2.2.2.2.2 _ _ rfl rfl
  refine ⟨h.1.trans ?_, h.2.2.2.1.trans (by rfl)⟩
  simp [Corpus.create, sortByCreatedAt, List.mergeSort, Document.get_text, String.join]

/-! ## `orca/model/base.py` — `StatusMixin.set_status` -/

/-- The accepted values hard-coded in `StatusMixin.set_status`
(`status_set = ["PENDING", "STARTED", "SENDING", "SUCCESS"]`). -/
def status_set : List String := ["PENDING", "STARTED", "SENDING", "SUCCESS"]

/-- Python `str.upper()`; the status machinery only ever compares ASCII
strings, for which `Char.toUpper` agrees with Python. -/
def pyUpper (s : String) : String := String.mk (s.data.map Char.toUpper)

/-- `StatusMixin.set_status`: if `status.upper()` is not in `status_set`,
raise `ValueError` (leaving the stored status unchanged); otherwise assign
`self.status = status` (the string as passed) and save.  Returns the
raised error, if any, together with the stored status after the call. -/
def set_status (current status : String) : Option String × String :=
  if pyUpper status ∉ status_set then
    (some ("ValueError: Invalid status " ++ status), current)
  else
    (none, status)

/-- C9: `set_status` accepts exactly the strings whose uppercasing is one
of PENDING, STARTED, SENDING, SUCCESS: for those it stores the new status
and raises nothing; for every other string — in particular "FAILURE" and
"STOPPED" — it raises a `ValueError` and the stored status stays what it
was. -/
theorem set_status_spec (current status : String) :
    (pyUpper status ∈ status_set →
        set_status current status = (none, status))
    ∧ (pyUpper status ∉ status_set →
        (set_status current status).1.isSome = true
        ∧ (set_status current status).2 = current)
    ∧ (set_status current "FAILURE").1.isSome = true
    ∧ (set_status current "FAILURE").2 = current
    ∧ (set_status current "STOPPED").1.isSome = true
    ∧ (set_status current "STOPPED").2 = current := by
  refine ⟨?_, ?_, ?_, ?_, ?_, ?_⟩
  · intro h
    simp [set_status, h]
  · intro h
    simp [set_status, h]
  · have h : pyUpper "FAILURE" ∉ status_set := by decide
    simp [set_status, h]
  · have h : pyUpper "FAILURE" ∉ status_set := by decide
    simp [set_status, h]
  · have h : pyUpper "STOPPED" ∉ status_set := by decide
    simp [set_status, h]
  · have h : pyUpper "STOPPED" ∉ status_set := by decide
    simp [set_status, h]

/-- Witness for C9: the lowercase spelling "pending" is accepted
case-insensitively and stored as passed; "FAILURE" is rejected and the
stored status stays "PENDING". -/
theorem set_status_spec_witness :
    set_status "PENDING" "pending" = (none, "pending")
    ∧ (set_status "PENDING" "FAILURE").1.isSome = true
    ∧ (set_status "PENDING" "FAILURE").2 = "PENDING" :=
  ⟨(set_status_spec "PENDING" "pending").1 (by decide),
   ((set_status_spec "PENDING" "FAILURE").2.1 (by decide)).1,
   ((set_status_spec "PENDING" "FAILURE").2.1 (by decide)).2⟩

/-! ## `orca/model/base.py` — timestamp columns (C10) -/

/-- The timestamp columns of every row, as declared on `Base`:
`created_at = mapped_column(init=False, insert_default=dt_now())` and
`updated_at = mapped_column(init=False, insert_default=dt_now(), onupdate=dt_now())`.
`dt_now()` is *called* in the class body, so both arguments receive the
one constant timestamp evaluated when the module is imported — call it
`t0` — not the callable `dt_now`; SQLAlchemy applies a non-callable
`insert_default`/`onupdate` as that scalar on every INSERT/UPDATE.
(Contrast the `guid` column, which correctly passes the callable via
`default_factory=create_guid`.) -/
structure BaseRow where
  created_at : Nat
  updated_at : Nat
  deriving Repr, DecidableEq

/-- Effect of inserting a row at wall-clock time `t` in a process whose
model module was imported at `t0`: the scalar defaults stamp `t0`. -/
def insertRow (t0 : Nat) (t : Nat) : BaseRow :=
  { created_at := t0, updated_at := t0 }

/-- Effect on the timestamp columns of any mutation (`update` or
`set_status` followed by a flush/commit) performed at wall-clock time `t`:
the scalar `onupdate` value `t0` is stamped, independent of `t`. -/
def mutateRow (t0 : Nat) (r : BaseRow) (t : Nat) : BaseRow :=
  { r with updated_at := t0 }

/-- The behavior the spec claims (each mutation stamps the current UTC
time of that mutation); kept separate so the divergence from `mutateRow`
can be stated. -/
def mutateRowClaimed (r : BaseRow) (t : Nat) : BaseRow :=
  { r with updated_at := t }

/-- C10 is false of the code: with the module imported at `t0 = 0`, rows
mutated at times 100 and 200 both carry `updated_at = 0` — the same
timestamp, not the time of each mutation — whereas the claimed semantics
gives them different timestamps; in general `mutateRow` ignores the
mutation time entirely. -/
theorem updated_at_ignores_mutation_time :
    (mutateRow 0 (insertRow 0 50) 100).updated_at
        = (mutateRow 0 (insertRow 0 60) 200).updated_at
    ∧ (mutateRow 0 (insertRow 0 50) 100).updated_at ≠ 100
    ∧ (mutateRowClaimed (insertRow 0 50) 100).updated_at
        ≠ (mutateRowClaimed (insertRow 0 60) 200).updated_at
    ∧ ∀ (t0 : Nat) (r : BaseRow) (t : Nat), (mutateRow t0 r t).updated_at = t0 :=
  ⟨rfl, by decide, by decide, fun t0 r t => rfl⟩

/-! ## `orca/tasks/importer.py` — batched commits (C6) -/

/-- `import_documents` batching: file `i` (zero-based) of `file_count`
files is passed to `Document.create_from_file` with
`immediate := do_batch i file_count batch_size`, and `save` commits the
session exactly when `immediate` is true.  This is the per-file commit
decision sequence of one run. -/
def import_commits (file_count batch_size : Nat) : List Bool :=
  (List.range file_count).map (fun i => do_batch i file_count batch_size)

/-- C6 is false of the code: with 3 files and `batch_size = 2`, the first
file (1-based position 1) is committed — `do_batch 0 3 2 = true` — even
though position 1 is neither a multiple of 2 nor the final position, so
the commit sequence is `[true, true, true]`, not the claimed
`[false, true, true]`. -/
theorem import_commits_counterexample :
    import_commits 3 2 = [true, true, true]
    ∧ import_commits 3 2
        ≠ (List.range 3).map (fun i => decide ((i + 1) % 2 = 0 ∨ i + 1 = 3)) := by
  constructor
  · rfl
  · decide

/-- C6 (amended): the session is committed exactly at the first file, at
the files whose 1-based position is a multiple of `batch_size`, and at
the final file; every other file is added to the session uncommitted. -/
theorem import_commits_amended (file_count batch_size : Nat) :
    import_commits file_count batch_size
      = (List.range file_count).map (fun i =>
          decide (i = 0 ∨ (i + 1) % batch_size = 0 ∨ i + 1 = file_count)) := by
  unfold import_commits
  apply List.map_congr_left
  intro i _
  unfold do_batch
  rw [Bool.eq_iff_iff]
  simp [or_assoc]

/-! ## `orca/configuration.py` — database defaults (C7) -/

/-- `DatabaseConfig.retries = field(default=3)`. -/
def DatabaseConfig.retries_default : Nat := 3

/-- `DatabaseConfig.batch_size = field(default=10000)`. -/
def DatabaseConfig.batch_size_default : Nat := 10000

/-! ## `orca/model/db.py` — `handle_sql_errors` (C7) -/

/-- The exceptions `handle_sql_errors` distinguishes: a transient
exception (one of `TRANS_EXC`, tagged with whether its message contains
"unable to open database file") or another `SQLAlchemyError`.  `id`
identifies the concrete exception object so "carrying the last cause" can
be stated. -/
inductive SqlExc where
  | transientExc (unableToOpenMsg : Bool) (id : Nat)
  | sqlAlchemyError (id : Nat)
  deriving Repr, DecidableEq

/-- Observable outcome of one wrapped call: the returned value or raised
exception (`Except.ok none` models the wrapper falling off the end of its
loop, which Python would answer with `None`), the number of attempts that
ran, and the sleeps performed between attempts. -/
structure RetryTrace (α : Type) where
  result : Except SqlExc (Option α)
  attempts : Nat
  sleeps : List Rat
  deriving Repr

/-- The `for attempt in range(1, config.db.retries + 2)` body of
`handle_sql_errors`: try the call; re-raise a transient error at once when
its message contains "unable to open database file"; otherwise, while
`attempt <= retries`, sleep `attempt**2 + random()` and retry, and at the
final attempt re-raise the (last) transient error; re-raise any other
`SQLAlchemyError` immediately.  `remaining` counts loop iterations left,
`jitter a` is the `random()` drawn after attempt `a`. -/
def retryLoop {α : Type} (retries : Nat) (jitter : Nat → Rat)
    (run : Nat → Except SqlExc α) :
    Nat → Nat → List Rat → RetryTrace α
  | 0, attempt, sleeps => { result := Except.ok none, attempts := attempt - 1, sleeps := sleeps }
  | remaining + 1, attempt, sleeps =>
      match run attempt with
      | Except.ok v =>
          { result := Except.ok (some v), attempts := attempt, sleeps := sleeps }
      | Except.error (SqlExc.transientExc unable id) =>
          if unable then
            { result := Except.error (SqlExc.transientExc unable id),
              attempts := attempt, sleeps := sleeps }
          else if attempt ≤ retries then
            retryLoop retries jitter run remaining (attempt + 1)
              (sleeps ++ [((attempt : Rat) ^ 2) + jitter attempt])
          else
            { result := Except.error (SqlExc.transientExc unable id),
              attempts := attempt, sleeps := sleeps }
      | Except.error (SqlExc.sqlAlchemyError id) =>
          { result := Except.error (SqlExc.sqlAlchemyError id),
            attempts := attempt, sleeps := sleeps }

/-- `db.handle_sql_errors`: run the loop for attempts `1 .. retries + 1`. -/
def handle_sql_errors {α : Type} (retries : Nat) (jitter : Nat → Rat)
    (run : Nat → Except SqlExc α) : RetryTrace α :=
  retryLoop retries jitter run (retries + 1) 1 []

theorem retryLoop_always_transient {α : Type} (retries : Nat) (jitter : Nat → Rat)
    (msg : Nat → Nat) :
    ∀ (remaining attempt : Nat) (sleeps : List Rat),
      attempt + remaining = retries + 2 → 1 ≤ remaining →
      retryLoop retries jitter
          (fun a => (Except.error (SqlExc.transientExc false (msg a)) : Except SqlExc α))
          remaining attempt sleeps
        = { result := Except.error (SqlExc.transientExc false (msg (retries + 1))),
            attempts := retries + 1,
            sleeps := sleeps ++ (List.range' attempt (retries + 1 - attempt)).map
                (fun a : Nat => ((a : Rat) ^ 2) + jitter a) } := by
  intro remaining
  induction remaining with
  | zero =>
      intro attempt sleeps h h1
      omega
  | succ r ih =>
      intro attempt sleeps h _h1
      by_cases hle : attempt ≤ retries
      · have hr : 1 ≤ r := by omega
        have hrange : List.range' attempt (retries + 1 - attempt)
            = attempt :: List.range' (attempt + 1) (retries + 1 - (attempt + 1)) := by
          have hn : retries + 1 - attempt = (retries + 1 - (attempt + 1)) + 1 := by omega
          rw [hn, List.range'_succ]
        rw [hrange]
        simp only [retryLoop, Bool.false_eq_true, if_false, if_pos hle]
        rw [ih (attempt + 1) _ (by omega) hr]
        simp [List.append_assoc]
      · have ha : attempt = retries + 1 := by omega
        subst ha
        simp only [retryLoop, Bool.false_eq_true, if_false, if_neg hle]
        simp

/-- C7 is false of the code in two places: `DatabaseConfig.retries`
defaults to 3, not 10; and a transient error whose message contains
"unable to open database file" is re-raised at the very first attempt,
with no retry and no sleep. -/
theorem handle_sql_errors_counterexample :
    DatabaseConfig.retries_default = 3
    ∧ DatabaseConfig.retries_default ≠ 10
    ∧ (handle_sql_errors DatabaseConfig.retries_default (fun _ => 0)
          (fun _ => (Except.error (SqlExc.transientExc true 7) : Except SqlExc Unit)))
        = { result := Except.error (SqlExc.transientExc true 7),
            attempts := 1, sleeps := [] } :=
  ⟨rfl, by decide, rfl⟩

/-- C7 (amended): a wrapped operation that keeps raising transient errors
whose message does not contain "unable to open database file" is attempted
`retries + 1` times in total — i.e. re-attempted up to `db.retries` times,
where `db.retries` defaults to 3 — sleeping `attempt² + random()` seconds
before each of the `retries` retries, and after exhaustion re-raises the
transient error of the last attempt (the last cause); a non-transient
`SQLAlchemyError` propagates at the first attempt with no retry and no
sleep; a transient error carrying the "unable to open database file"
message likewise propagates immediately. -/
theorem handle_sql_errors_amended {α : Type} (retries : Nat) (jitter : Nat → Rat)
    (msg : Nat → Nat) (m u : Nat) :
    (handle_sql_errors retries jitter
        (fun a => (Except.error (SqlExc.transientExc false (msg a)) : Except SqlExc α)))
      = { result := Except.error (SqlExc.transientExc false (msg (retries + 1))),
          attempts := retries + 1,
          sleeps := (List.range' 1 retries).map (fun a : Nat => ((a : Rat) ^ 2) + jitter a) }
    ∧ (handle_sql_errors retries jitter
        (fun _ => (Except.error (SqlExc.sqlAlchemyError m) : Except SqlExc α)))
      = { result := Except.error (SqlExc.sqlAlchemyError m), attempts := 1, sleeps := [] }
    ∧ (handle_sql_errors retries jitter
        (fun _ => (Except.error (SqlExc.transientExc true u) : Except SqlExc α)))
      = { result := Except.error (SqlExc.transientExc true u), attempts := 1, sleeps := [] }
    ∧ DatabaseConfig.retries_default = 3 := by
  refine ⟨?_, rfl, rfl, rfl⟩
  unfold handle_sql_errors
  rw [retryLoop_always_transient retries jitter msg (retries + 1) 1 [] (by omega) (by omega)]
  simp

/-! ## `orca/tasks/importer.py` — `create_index` population (C8) -/

/-- The index-population step of `create_index`: after the `Corpus.create`
snapshot and the `_create_new_index` reset, it iterates all documents and
calls `writer.add_document(guid=document.guid, content=document.get_text(...))`
for each; the index is modelled as the resulting list of
`(guid, content)` entries.  `get_text` maps an unreadable file to `""`
(logging a warning), so every document contributes an entry and no
per-document exception escapes. -/
def create_index (fs : String → Option String) (documents : List Document) :
    List (String × String) :=
  documents.map (fun d => (d.guid, Document.get_text fs d))

/-- C8 is false of the code: with three documents of which the second has
no readable text file, the rebuilt index has 3 entries, not 2 — the
unreadable document is not skipped but indexed with empty content. -/
theorem create_index_counterexample :
    (create_index
        (fun p => if p = "t1" then some "Hello from Document #1"
          else if p = "t3" then some "Hello from Document #3" else none)
        [{ guid := "g1", created_at := 1, text_path := "t1" },
         { guid := "g2", created_at := 2, text_path := "t2" },
         { guid := "g3", created_at := 3, text_path := "t3" }]).length = 3
    ∧ (create_index
        (fun p => if p = "t1" then some "Hello from Document #1"
          else if p = "t3" then some "Hello from Document #3" else none)
        [{ guid := "g1", created_at := 1, text_path := "t1" },
         { guid := "g2", created_at := 2, text_path := "t2" },
         { guid := "g3", created_at := 3, text_path := "t3" }]).length ≠ 2
    ∧ ("g2", "") ∈ create_index
        (fun p => if p = "t1" then some "Hello from Document #1"
          else if p = "t3" then some "Hello from Document #3" else none)
        [{ guid := "g1", created_at := 1, text_path := "t1" },
         { guid := "g2", created_at := 2, text_path := "t2" },
         { guid := "g3", created_at := 3, text_path := "t3" }] := by
  refine ⟨rfl, by decide, by decide⟩

/-- C8 (amended): a file-read error on a single document's text file is
logged and yields empty text instead of aborting, so the rebuild completes
without raising and the index contains exactly one entry per document —
each readable document with its text, each unreadable document with empty
content. -/
theorem create_index_amended (fs : String → Option String) (documents : List Document) :
    (create_index fs documents).length = documents.length
    ∧ (∀ d ∈ documents, (d.guid, Document.get_text fs d) ∈ create_index fs documents)
    ∧ (∀ d ∈ documents, fs d.text_path = none → (d.guid, "") ∈ create_index fs documents) := by
  refine ⟨by simp [create_index], ?_, ?_⟩
  · intro d hd
    exact List.mem_map_of_mem _ hd
  · intro d hd h
    have hmem := List.mem_map_of_mem (fun d => (d.guid, Document.get_text fs d)) hd
    simp only [Document.get_text, h] at hmem
    exact hmem

/-- Witness for C8 (amended) at the three-document fixture with the second
text file missing: its membership hypotheses are discharged concretely. -/
theorem create_index_amended_witness :
    ("g2", "") ∈ create_index
        (fun p => if p = "t1" then some "Hello from Document #1"
          else if p = "t3" then some "Hello from Document #3" else none)
        [{ guid := "g1", created_at := 1, text_path := "t1" },
         { guid := "g2", created_at := 2, text_path := "t2" },
         { guid := "g3", created_at := 3, text_path := "t3" }] :=
  (create_index_amended
      (fun p => if p = "t1" then some "Hello from Document #1"
        else if p = "t3" then some "Hello from Document #3" else none)
      [{ guid := "g1", created_at := 1, text_path := "t1" },
       { guid := "g2", created_at := 2, text_path := "t2" },
       { guid := "g3", created_at := 3, text_path := "t3" }]).2.2
    { guid := "g2", created_at := 2, text_path := "t2" } (by decide) (by decide)

/-! ## `orca/model/search.py` (current generation) — `Search` and `Megadoc`

The async `Search`/`Megadoc` model that `orca.model.__init__` imports and
that `searcher.py`/`exporter.py` call (`Search.create(search_str, corpus)`,
`search.add_document`, `search.add_megadoc`, `search.document_count`) is
absent from the source tree — only its older sync variant, its tests and
its callers are present — so those constructors are modelled from the
spec; the task functions themselves are embedded from their source. -/

/-- Python `str.lower()`; filetypes are ASCII, where `Char.toLower`
agrees with Python. -/
def pyLower (s : String) : String := String.mk (s.data.map Char.toLower)

/-- A `Megadoc` row: the columns the claims depend on.  `progress` is a
float column modelled as `Rat`. -/
structure Megadoc where
  guid : String
  filetype : String
  status : String
  progress : Rat
  deriving Repr, DecidableEq

/-- A `Search` row with its relationship collections and the denormalized
`document_count`. -/
structure Search where
  guid : String
  search_str : String
  corpus_guid : String
  status : String
  documents : List Document
  megadocs : List Megadoc
  document_count : Nat
  deriving Repr, DecidableEq

/-- Modelled from the spec: `Search.create(search_str, corpus)` — absent
from src — creates a row bound to the given corpus with status "PENDING"
and no attached documents or megadocs. -/
def Search.create (search_str : String) (corpus_guid : String) (newGuid : String) :
    Search :=
  { guid := newGuid, search_str := search_str, corpus_guid := corpus_guid,
    status := "PENDING", documents := [], megadocs := [], document_count := 0 }

/-- Modelled from the spec: `search.add_document(document)` — absent from
src — attaches the document and keeps `document_count` consistent with
the join table. -/
def Search.add_document (search : Search) (doc : Document) : Search :=
  { search with
    documents := search.documents ++ [doc]
    document_count := search.document_count + 1 }

/-- Modelled from the spec: the async `search.add_megadoc(filetype)` —
absent from src — creates and persists a Megadoc row for this search with
the given filetype, a fresh GUID, status "PENDING" and progress 0. -/
def Search.add_megadoc (filetype : String) (newGuid : String) : Megadoc :=
  { guid := newGuid, filetype := filetype, status := "PENDING", progress := 0 }

/-! ## `orca/tasks/searcher.py` — `create_search` (C5) -/

/-- The exceptions `create_search` raises. -/
inductive PyErr where
  | valueError (msg : String)
  | lookupError (msg : String)
  deriving Repr, DecidableEq

/-- The `for result in _run_whoosh_query(...)` body of `create_search`:
resolve each hit's guid to a `Document` (raising `LookupError` when the
index is out of sync with the database), skip duplicates with a warning,
transition status PENDING → STARTED on the first attach, and attach. -/
def searchLoop (getDoc : String → Option Document) :
    List String → Search → Except PyErr Search
  | [], search => Except.ok search
  | guid :: rest, search =>
      match getDoc guid with
      | none => Except.error (PyErr.lookupError
          ("Document <" ++ guid ++ "> referenced in index does not exist in database"))
      | some document =>
          if document ∈ search.documents then
            searchLoop getDoc rest search
          else
            searchLoop getDoc rest
              ((if search.status ≠ "STARTED"
                then { search with status := "STARTED" } else search).add_document document)

/-- Result of `create_search`: the returned row or raised error, together
with the `Search` rows persisted during the call (the row is created and
committed before the hit loop runs). -/
structure CreateSearchResult where
  result : Except PyErr Search
  created : List Search
  deriving Repr

/-- `searcher.create_search`: reject a query shorter than 3 characters
with `ValueError`; load the latest corpus, raising `ValueError` when none
exists; create a `Search` row bound to it; run the whoosh hits (abstracted
as the list of hit guids `hits` with database lookup `getDoc`) through
`searchLoop`; finally set status "SUCCESS". -/
def create_search (search_str : String) (latest : Option Corpus)
    (hits : List String) (getDoc : String → Option Document) (corpus_guid newGuid : String) :
    CreateSearchResult :=
  if search_str.length < 3 then
    { result := Except.error (PyErr.valueError ("Invalid search string " ++ search_str))
      created := [] }
  else
    match latest with
    | none =>
        { result := Except.error (PyErr.valueError "No Corpus available")
          created := [] }
    | some _corpus =>
        let search := Search.create search_str corpus_guid newGuid
        match searchLoop getDoc hits search with
        | Except.error e => { result := Except.error e, created := [search] }
        | Except.ok search2 =>
            let search3 := { search2 with status := "SUCCESS" }
            { result := Except.ok search3, created := [search3] }

/-- C5: `create_search` raises the invalid-input `ValueError` for every
query shorter than 3 characters and, for queries of length ≥ 3, raises
the no-corpus `ValueError` when no corpus exists; in both failure cases no
`Search` row is created.  When the query has length ≥ 3 and a corpus
exists, the length guard does not fire: no invalid-input error is raised
and a `Search` row is created. -/
theorem create_search_guards (search_str : String) (latest : Option Corpus)
    (hits : List String) (getDoc : String → Option Document) (corpus_guid newGuid : String) :
    (search_str.length < 3 →
        (create_search search_str latest hits getDoc corpus_guid newGuid).result
            = Except.error (PyErr.valueError ("Invalid search string " ++ search_str))
        ∧ (create_search search_str latest hits getDoc corpus_guid newGuid).created = [])
    ∧ (3 ≤ search_str.length → latest = none →
        (create_search search_str latest hits getDoc corpus_guid newGuid).result
            = Except.error (PyErr.valueError "No Corpus available")
        ∧ (create_search search_str latest hits getDoc corpus_guid newGuid).created = [])
    ∧ (3 ≤ search_str.length → ∀ corpus, latest = some corpus →
        (∀ msg, (create_search search_str latest hits getDoc corpus_guid newGuid).result
            ≠ Except.error (PyErr.valueError msg))
        ∧ (create_search search_str latest hits getDoc corpus_guid newGuid).created.length
            = 1) := by
  refine ⟨?_, ?_, ?_⟩
  · intro h
    constructor <;> simp [create_search, h]
  · intro h3 hnone
    subst hnone
    have h : ¬ search_str.length < 3 := by omega
    constructor <;> simp [create_search, h]
  · intro h3 corpus hsome
    subst hsome
    have h : ¬ search_str.length < 3 := by omega
    have hloop : ∀ (l : List String) (s : Search),
        (∀ msg, searchLoop getDoc l s ≠ Except.error (PyErr.valueError msg)) := by
      intro l
      induction l with
      | nil =>
          intro s msg hcontra
          simp [searchLoop] at hcontra
      | cons g rest ih =>
          intro s msg hcontra
          unfold searchLoop at hcontra
          split at hcontra
          · simp at hcontra
          · split at hcontra
            · exact ih s msg hcontra
            · exact ih _ msg hcontra
    constructor
    · intro msg
      simp only [create_search, if_neg h]
      cases hres : searchLoop getDoc hits (Search.create search_str corpus_guid newGuid) with
      | error e =>
          cases e with
          | valueError m => exact (hloop hits _ m hres).elim
          | lookupError m => simp
      | ok s2 => simp
    · simp only [create_search, if_neg h]
      cases hres : searchLoop getDoc hits (Search.create search_str corpus_guid newGuid) with
      | error e => simp
      | ok s2 => simp

/-- Witness for C5: length-2 query "ab" is rejected with the invalid-input
error; with a corpus present and no hits, the length-3 query "abc" is
accepted (no `ValueError`) and exactly one `Search` row is created; with
no corpus, "abc" is rejected with the no-corpus error.  All hypotheses of
the theorem are discharged at these inputs. -/
theorem create_search_guards_witness :
    (create_search "ab" (some { checksum := "00000000", documents := [], document_count := 0 })
        [] (fun _ => none) "c0" "s1").result
      = Except.error (PyErr.valueError "Invalid search string ab")
    ∧ (create_search "abc" none [] (fun _ => none) "c0" "s1").result
      = Except.error (PyErr.valueError "No Corpus available")
    ∧ (create_search "abc"
        (some { checksum := "00000000", documents := [], document_count := 0 })
        [] (fun _ => none) "c0" "s1").created.length = 1 := by
  refine ⟨?_, ?_, ?_⟩
  · exact ((create_search_guards "ab"
      (some { checksum := "00000000", documents := [], document_count := 0 })
      [] (fun _ => none) "c0" "s1").1 (by decide)).1
  · exact ((create_search_guards "abc" none [] (fun _ => none) "c0" "s1").2.1
      (by decide) rfl).1
  · exact ((create_search_guards "abc"
      (some { checksum := "00000000", documents := [], document_count := 0 })
      [] (fun _ => none) "c0" "s1").2.2 (by decide)
      { checksum := "00000000", documents := [], document_count := 0 } rfl).2

/-! ## `orca/tasks/exporter.py` — `create_megadoc` (C2, C4) -/

/-- Result of `create_megadoc`: skipped with no row (no results), the
pre-existing megadoc of this filetype returned unchanged, the
`NotImplementedError` raise (carrying the row `add_megadoc` had already
persisted), or the built megadoc together with the ordered list of
`(progress, status)` updates issued to it. -/
inductive MegadocOutcome where
  | noResults
  | existing (megadoc : Megadoc)
  | notImplemented (megadoc : Megadoc)
  | built (megadoc : Megadoc) (updates : List (Rat × String))
  deriving Repr, DecidableEq

/-- The `for i, doc in enumerate(sorted(documents, key=created_at))` body
of `create_megadoc`: for a supported filetype (".docx" via
`_to_docx_file`, ".md"/".txt" via `_to_markdown_file`; the appended file
bytes are not modelled) each iteration appends a section and then runs
`megadoc.update({"progress": float(i+1)/float(document_count),
"status": "STARTED"})`; any other filetype raises `NotImplementedError`
at its first iteration. -/
def megadocLoop (filetype : String) (document_count : Nat) :
    List Document → Nat → Megadoc → List (Rat × String) →
    Except String (Megadoc × List (Rat × String))
  | [], _i, megadoc, updates => Except.ok (megadoc, updates)
  | _doc :: rest, i, megadoc, updates =>
      if filetype = ".docx" ∨ filetype = ".md" ∨ filetype = ".txt" then
        megadocLoop filetype document_count rest (i + 1)
          { megadoc with
            progress := ((i : Rat) + 1) / (document_count : Rat)
            status := "STARTED" }
          (updates ++ [(((i : Rat) + 1) / (document_count : Rat), "STARTED")])
      else
        Except.error "NotImplementedError"

/-- `exporter.create_megadoc`: lowercase the filetype; return nothing when
the search has no results; return the existing megadoc of this filetype
unchanged when there is one; otherwise persist a fresh row via
`search.add_megadoc` (GUID `newGuid`), run the section loop over the
documents in ascending `created_at` order, and finally update the megadoc
to progress 100.0, status "SENDING". -/
def create_megadoc (filetype0 : String) (search : Search) (newGuid : String) :
    MegadocOutcome :=
  let filetype := pyLower filetype0
  if search.document_count < 1 then
    MegadocOutcome.noResults
  else
    match search.megadocs.find? (fun md => md.filetype == filetype) with
    | some old_megadoc => MegadocOutcome.existing old_megadoc
    | none =>
        let megadoc := Search.add_megadoc filetype newGuid
        match megadocLoop filetype search.document_count
            (sortByCreatedAt search.documents) 0 megadoc [] with
        | Except.error _ => MegadocOutcome.notImplemented megadoc
        | Except.ok (md, updates) =>
            MegadocOutcome.built { md with progress := 100, status := "SENDING" }
              (updates ++ [((100 : Rat), "SENDING")])

/-- The search's megadoc rows after `create_megadoc` returns or raises
(the `add_megadoc` row is committed before the section loop, so it
persists even across the `NotImplementedError` raise). -/
def megadocsAfter (filetype0 : String) (search : Search) (newGuid : String) :
    List Megadoc :=
  match create_megadoc filetype0 search newGuid with
  | MegadocOutcome.noResults => search.megadocs
  | MegadocOutcome.existing _ => search.megadocs
  | MegadocOutcome.notImplemented md => search.megadocs ++ [md]
  | MegadocOutcome.built md _ => search.megadocs ++ [md]

/-- The ordered `(progress, status)` updates `create_megadoc` issues to
the megadoc it builds (empty in the other outcomes). -/
def megadocUpdates (filetype0 : String) (search : Search) (newGuid : String) :
    List (Rat × String) :=
  match create_megadoc filetype0 search newGuid with
  | MegadocOutcome.built _ updates => updates
  | _ => []

/-- C2 is false as universally stated: for a Search with zero attached
documents, the unsupported filetype ".pdf" does not raise
`NotImplementedError` — the no-results guard fires first, so
`create_megadoc` returns nothing and persists no row. -/
theorem create_megadoc_counterexample :
    create_megadoc ".pdf"
        { guid := "s0", search_str := "orca", corpus_guid := "c0", status := "SUCCESS",
          documents := [], megadocs := [], document_count := 0 } "m1"
      = MegadocOutcome.noResults
    ∧ (¬ ∃ md, create_megadoc ".pdf"
        { guid := "s0", search_str := "orca", corpus_guid := "c0", status := "SUCCESS",
          documents := [], megadocs := [], document_count := 0 } "m1"
      = MegadocOutcome.notImplemented md)
    ∧ megadocsAfter ".pdf"
        { guid := "s0", search_str := "orca", corpus_guid := "c0", status := "SUCCESS",
          documents := [], megadocs := [], document_count := 0 } "m1" = [] := by
  refine ⟨rfl, ?_, rfl⟩
  rintro ⟨md, hmd⟩
  rw [show create_megadoc ".pdf"
      { guid := "s0", search_str := "orca", corpus_guid := "c0", status := "SUCCESS",
        documents := [], megadocs := [], document_count := 0 } "m1"
    = MegadocOutcome.noResults from rfl] at hmd
  exact MegadocOutcome.noConfusion hmd

/-- C2 (amended): `create_megadoc` checks its guards in order — a Search
with zero results yields nothing and persists no Megadoc (whatever the
filetype); otherwise, when a Megadoc of the (lowercased) filetype already
exists, the first such row is returned unchanged (same GUID) and no row
is added; otherwise a filetype outside {.txt, .md, .docx} raises
not-implemented (after the fresh row from `add_megadoc` has been
persisted). -/
theorem create_megadoc_amended (filetype0 : String) (search : Search) (newGuid : String) :
    (search.document_count = 0 →
        create_megadoc filetype0 search newGuid = MegadocOutcome.noResults
        ∧ megadocsAfter filetype0 search newGuid = search.megadocs)
    ∧ (∀ old, 1 ≤ search.document_count →
        search.megadocs.find? (fun md => md.filetype == pyLower filetype0) = some old →
        create_megadoc filetype0 search newGuid = MegadocOutcome.existing old
        ∧ megadocsAfter filetype0 search newGuid = search.megadocs)
    ∧ (1 ≤ search.document_count →
        search.megadocs.find? (fun md => md.filetype == pyLower filetype0) = none →
        search.documents ≠ [] →
        pyLower filetype0 ∉ [".docx", ".md", ".txt"] →
        create_megadoc filetype0 search newGuid
            = MegadocOutcome.notImplemented (Search.add_megadoc (pyLower filetype0) newGuid)) := by
  refine ⟨?_, ?_, ?_⟩
  · intro h
    constructor
    · simp [create_megadoc, h]
    · simp [megadocsAfter, create_megadoc, h]
  · intro old h1 hfind
    have hne0 : ¬ search.document_count = 0 := by omega
    constructor
    · simp [create_megadoc, hne0, hfind]
    · simp [megadocsAfter, create_megadoc, hne0, hfind]
  · intro h1 hfind hne hunsup
    have hlt : ¬ search.document_count < 1 := by omega
    have hsorted : sortByCreatedAt search.documents ≠ [] := by
      intro hcon
      have hperm := List.mergeSort_perm search.documents
        (fun a b => decide (a.created_at ≤ b.created_at))
      rw [sortByCreatedAt] at hcon
      rw [hcon] at hperm
      exact hne hperm.symm.eq_nil
    obtain ⟨d, rest, hds⟩ := List.exists_cons_of_ne_nil hsorted
    have hcond : ¬ (pyLower filetype0 = ".docx" ∨ pyLower filetype0 = ".md"
        ∨ pyLower filetype0 = ".txt") := by
      simpa using hunsup
    simp only [create_megadoc, if_neg hlt, hfind, hds]
    rw [megadocLoop, if_neg hcond]

/-- Witness for C2 (amended) at three concrete searches: a zero-result
search with ".txt" yields nothing and no row; a one-document search that
already has a ".txt" megadoc gets that same row back (same GUID "m0") with
its megadoc list unchanged; a one-document search with no megadocs and
filetype ".pdf" raises not-implemented. -/
theorem create_megadoc_amended_witness :
    create_megadoc ".txt"
        { guid := "s0", search_str := "orca", corpus_guid := "c0", status := "SUCCESS",
          documents := [], megadocs := [], document_count := 0 } "m1"
      = MegadocOutcome.noResults
    ∧ create_megadoc ".txt"
        { guid := "s1", search_str := "orca", corpus_guid := "c0", status := "SUCCESS",
          documents := [{ guid := "g1", created_at := 1, text_path := "t1" }],
          megadocs := [{ guid := "m0", filetype := ".txt", status := "SUCCESS", progress := 100 }],
          document_count := 1 } "m1"
      = MegadocOutcome.existing
          { guid := "m0", filetype := ".txt", status := "SUCCESS", progress := 100 }
    ∧ megadocsAfter ".txt"
        { guid := "s1", search_str := "orca", corpus_guid := "c0", status := "SUCCESS",
          documents := [{ guid := "g1", created_at := 1, text_path := "t1" }],
          megadocs := [{ guid := "m0", filetype := ".txt", status := "SUCCESS", progress := 100 }],
          document_count := 1 } "m1"
      = [{ guid := "m0", filetype := ".txt", status := "SUCCESS", progress := 100 }]
    ∧ create_megadoc ".pdf"
        { guid := "s2", search_str := "orca", corpus_guid := "c0", status := "SUCCESS",
          documents := [{ guid := "g1", created_at := 1, text_path := "t1" }],
          megadocs := [], document_count := 1 } "m2"
      = MegadocOutcome.notImplemented (Search.add_megadoc (pyLower ".pdf") "m2") := by
  refine ⟨?_, ?_, ?_, ?_⟩
  · exact ((create_megadoc_amended ".txt"
      { guid := "s0", search_str := "orca", corpus_guid := "c0", status := "SUCCESS",
        documents := [], megadocs := [], document_count := 0 } "m1").1 rfl).1
  · exact ((create_megadoc_amended ".txt"
      { guid := "s1", search_str := "orca", corpus_guid := "c0", status := "SUCCESS",
        documents := [{ guid := "g1", created_at := 1, text_path := "t1" }],
        megadocs := [{ guid := "m0", filetype := ".txt", status := "SUCCESS", progress := 100 }],
        document_count := 1 } "m1").2.1
      { guid := "m0", filetype := ".txt", status := "SUCCESS", progress := 100 }
      (by decide) (by decide)).1
  · exact ((create_megadoc_amended ".txt"
      { guid := "s1", search_str := "orca", corpus_guid := "c0", status := "SUCCESS",
        documents := [{ guid := "g1", created_at := 1, text_path := "t1" }],
        megadocs := [{ guid := "m0", filetype := ".txt", status := "SUCCESS", progress := 100 }],
        document_count := 1 } "m1").2.1
      { guid := "m0", filetype := ".txt", status := "SUCCESS", progress := 100 }
      (by decide) (by decide)).2
  · exact (create_megadoc_amended ".pdf"
      { guid := "s2", search_str := "orca", corpus_guid := "c0", status := "SUCCESS",
        documents := [{ guid := "g1", created_at := 1, text_path := "t1" }],
        megadocs := [], document_count := 1 } "m2").2.2
      (by decide) (by decide) (by decide) (by decide)

theorem megadocLoop_supported (filetype : String)
    (hft : filetype = ".docx" ∨ filetype = ".md" ∨ filetype = ".txt") (n : Nat) :
    ∀ (docs : List Document) (i : Nat) (megadoc : Megadoc) (updates : List (Rat × String)),
      ∃ md2, megadocLoop filetype n docs i megadoc updates
        = Except.ok (md2, updates ++ (List.range' (i + 1) docs.length).map
            (fun a : Nat => ((a : Rat) / (n : Rat), "STARTED"))) := by
  intro docs
  induction docs with
  | nil =>
      intro i megadoc updates
      exact ⟨megadoc, by simp [megadocLoop]⟩
  | cons d rest ih =>
      intro i megadoc updates
      obtain ⟨md2, h2⟩ := ih (i + 1)
        { megadoc with
          progress := ((i : Rat) + 1) / (n : Rat)
          status := "STARTED" }
        (updates ++ [(((i : Rat) + 1) / (n : Rat), "STARTED")])
      refine ⟨md2, ?_⟩
      rw [megadocLoop, if_pos hft, h2]
      rw [List.length_cons, List.range'_succ]
      simp [List.append_assoc]

theorem range'_pairwise_lt : ∀ (n s : Nat), (List.range' s n).Pairwise (fun a b => a < b)
  | 0, s => by simp
  | n + 1, s => by
      rw [List.range'_succ]
      refine List.Pairwise.cons ?_ (range'_pairwise_lt n (s + 1))
      intro b hb
      exact lt_of_lt_of_le (Nat.lt_succ_self s) (List.mem_range'_1.mp hb).1

/-- C4 is false of the code: building a ".txt" megadoc over a search with
two documents issues the updates `[(1/2, STARTED), (1, STARTED),
(100, SENDING)]` — after the 0th section progress is `1/2`, not
`(0+1)/2*100 = 50`: the code divides by `document_count` without the
`* 100`. -/
theorem megadoc_progress_counterexample :
    megadocUpdates ".txt"
        { guid := "s1", search_str := "orca", corpus_guid := "c0", status := "SUCCESS",
          documents := [{ guid := "g1", created_at := 1, text_path := "t1" },
                        { guid := "g2", created_at := 2, text_path := "t2" }],
          megadocs := [], document_count := 2 } "m1"
      = [((1 : Rat) / 2, "STARTED"), ((1 : Rat), "STARTED"), ((100 : Rat), "SENDING")]
    ∧ ((1 : Rat) / 2) ≠ ((0 + 1 : Rat) / 2) * 100 := by
  constructor
  · simp [megadocUpdates, create_megadoc, sortByCreatedAt, List.mergeSort, megadocLoop,
      Search.add_megadoc, pyLower]
  · norm_num

/-- C4 (amended): during `create_megadoc` over a search whose
`document_count` is `n ≥ 1` (consistent with its document list), with a
supported filetype and no pre-existing megadoc of that filetype, the
update issued after the i-th section (0-based) sets
`progress = (i+1)/n` — without the `* 100` the spec states — and status
"STARTED"; every issued progress value lies in [0, 100] and the sequence
is monotonically non-decreasing; the final update sets progress 100.0 and
status "SENDING", which is the built megadoc's final state. -/
theorem megadoc_progress_amended (filetype0 : String) (search : Search) (newGuid : String)
    (hcount : search.documents.length = search.document_count)
    (hpos : 1 ≤ search.document_count)
    (hft : pyLower filetype0 = ".docx" ∨ pyLower filetype0 = ".md"
        ∨ pyLower filetype0 = ".txt")
    (hfind : search.megadocs.find? (fun md => md.filetype == pyLower filetype0) = none) :
    megadocUpdates filetype0 search newGuid
      = (List.range' 1 search.document_count).map
          (fun a : Nat => ((a : Rat) / (search.document_count : Rat), "STARTED"))
        ++ [((100 : Rat), "SENDING")]
    ∧ (∀ i, i < search.document_count →
        (megadocUpdates filetype0 search newGuid)[i]?
          = some (((i : Rat) + 1) / (search.document_count : Rat), "STARTED"))
    ∧ (∀ u ∈ megadocUpdates filetype0 search newGuid, 0 ≤ u.1 ∧ u.1 ≤ 100)
    ∧ List.Chain' (fun u v : Rat × String => u.1 ≤ v.1)
        (megadocUpdates filetype0 search newGuid)
    ∧ (∃ md, create_megadoc filetype0 search newGuid
        = MegadocOutcome.built md (megadocUpdates filetype0 search newGuid)
        ∧ md.progress = 100 ∧ md.status = "SENDING") := by
  have hlen : (sortByCreatedAt search.documents).length = search.document_count := by
    rw [sortByCreatedAt, List.length_mergeSort, hcount]
  obtain ⟨md2, hloop⟩ := megadocLoop_supported (pyLower filetype0) hft
    search.document_count (sortByCreatedAt search.documents) 0
    (Search.add_megadoc (pyLower filetype0) newGuid) []
  have hne0 : ¬ search.document_count = 0 := by omega
  have hcm : create_megadoc filetype0 search newGuid
      = MegadocOutcome.built { md2 with progress := 100, status := "SENDING" }
          ((List.range' 1 search.document_count).map
              (fun a : Nat => ((a : Rat) / (search.document_count : Rat), "STARTED"))
            ++ [((100 : Rat), "SENDING")]) := by
    rw [hlen] at hloop
    simp [create_megadoc, hne0, hfind, hloop]
  have hupd : megadocUpdates filetype0 search newGuid
      = (List.range' 1 search.document_count).map
          (fun a : Nat => ((a : Rat) / (search.document_count : Rat), "STARTED"))
        ++ [((100 : Rat), "SENDING")] := by
    simp [megadocUpdates, hcm]
  have hnpos : (0 : Rat) < (search.document_count : Rat) := by
    exact_mod_cast hpos
  refine ⟨hupd, ?_, ?_, ?_, ?_⟩
  · intro i hi
    rw [hupd]
    rw [List.getElem?_append_left (by simpa using hi)]
    rw [List.getElem?_map, List.getElem?_range' 1 1 hi]
    simp
    ring_nf
  · intro u hu
    rw [hupd] at hu
    rcases List.mem_append.mp hu with h | h
    · obtain ⟨a, ha, rfl⟩ := List.mem_map.mp h
      obtain ⟨ha1, ha2⟩ := List.mem_range'_1.mp ha
      constructor
      · exact div_nonneg (by positivity) (le_of_lt hnpos)
      · refine le_trans (div_le_one_of_le₀ ?_ (le_of_lt hnpos)) (by norm_num)
        exact_mod_cast (by omega : a ≤ search.document_count)
    · rw [List.mem_singleton] at h
      subst h
      norm_num
  · rw [hupd]
    apply List.Pairwise.chain'
    rw [List.pairwise_append]
    refine ⟨?_, by simp, ?_⟩
    · refine List.Pairwise.map _ ?_ (range'_pairwise_lt search.document_count 1)
      intro a b hab
      show (a : Rat) / (search.document_count : Rat)
          ≤ (b : Rat) / (search.document_count : Rat)
      exact (div_le_div_iff_of_pos_right hnpos).mpr (by exact_mod_cast le_of_lt hab)
    · intro u hu v hv
      obtain ⟨a, ha, rfl⟩ := List.mem_map.mp hu
      obtain ⟨ha1, ha2⟩ := List.mem_range'_1.mp ha
      rw [List.mem_singleton] at hv
      subst hv
      refine le_trans (div_le_one_of_le₀ ?_ (le_of_lt hnpos)) (by norm_num)
      exact_mod_cast (by omega : a ≤ search.document_count)
  · exact ⟨{ md2 with progress := 100, status := "SENDING" }, by rw [hcm, hupd], rfl, rfl⟩

/-- Witness for C4 (amended) at a two-document ".txt" search: all four
hypotheses are discharged concretely and the update after the 0th section
carries progress 1/2. -/
theorem megadoc_progress_amended_witness :
    (megadocUpdates ".txt"
        { guid := "s1", search_str := "orca", corpus_guid := "c0", status := "SUCCESS",
          documents := [{ guid := "g1", created_at := 1, text_path := "t1" },
                        { guid := "g2", created_at := 2, text_path := "t2" }],
          megadocs := [], document_count := 2 } "m1")[0]?
      = some ((1 : Rat) / 2, "STARTED") := by
  have h := (megadoc_progress_amended ".txt"
      { guid := "s1", search_str := "orca", corpus_guid := "c0", status := "SUCCESS",
        documents := [{ guid := "g1", created_at := 1, text_path := "t1" },
                      { guid := "g2", created_at := 2, text_path := "t2" }],
        megadocs := [], document_count := 2 } "m1"
      (by decide) (by decide) (by decide) (by decide)).2.1 0 (by decide)
  rw [h]
  norm_num

/-! ## `orca/tasks/exporter.py` — `upload_megadoc` (C3) -/

/-- Outcome of `upload_megadoc`: the `FileNotFoundError` guard, the
`RuntimeError` after retry exhaustion (carrying the final attempt
number), or normal completion. -/
inductive UploadOutcome where
  | fileNotFound
  | runtimeError (lastAttempt : Nat)
  | completed
  deriving Repr, DecidableEq

/-- Observable trace of one `upload_megadoc` call: outcome, how many
`upload_fileobj` calls were issued and how many of them succeeded, the
backoff sleeps performed, and the megadoc's status afterwards. -/
structure UploadTrace where
  outcome : UploadOutcome
  uploadsIssued : Nat
  uploadsSucceeded : Nat
  sleeps : List Rat
  finalStatus : String
  deriving Repr

/-- The `for attempt in range(1, config.db.retries + 2)` body of
`upload_megadoc`: every iteration opens the file and issues
`upload_fileobj`; on `OSError`/`BotoCoreError` it sleeps
`attempt**2 + random()` and continues while `attempt <= retries`, raising
`RuntimeError` at the final attempt; after a successful upload nothing
leaves the loop (the body has no break or return), so the next iteration
uploads again.  `fails a` says whether the upload of attempt `a` raises;
`remaining` counts loop iterations left. -/
def uploadLoop (retries : Nat) (jitter : Nat → Rat) (fails : Nat → Bool) :
    Nat → Nat → Nat → Nat → List Rat → (Option Nat × Nat × Nat × List Rat)
  | 0, _attempt, issued, succeeded, sleeps => (none, issued, succeeded, sleeps)
  | remaining + 1, attempt, issued, succeeded, sleeps =>
      if fails attempt then
        if attempt ≤ retries then
          uploadLoop retries jitter fails remaining (attempt + 1) (issued + 1) succeeded
            (sleeps ++ [((attempt : Rat) ^ 2) + jitter attempt])
        else
          (some attempt, issued + 1, succeeded, sleeps)
      else
        uploadLoop retries jitter fails remaining (attempt + 1) (issued + 1) (succeeded + 1)
          sleeps

/-- `exporter.upload_megadoc`: raise `FileNotFoundError` unless the file
at `data_path / megadoc.path` exists; otherwise run the upload loop over
attempts `1 .. retries + 1`; when the loop finishes without raising, set
the megadoc's status to "SUCCESS" (on the `RuntimeError` path the status
is left as it was). -/
def upload_megadoc (megadoc : Megadoc) (fileExists : Bool) (retries : Nat)
    (jitter : Nat → Rat) (fails : Nat → Bool) : UploadTrace :=
  if ¬ fileExists then
    { outcome := UploadOutcome.fileNotFound
      uploadsIssued := 0
      uploadsSucceeded := 0
      sleeps := []
      finalStatus := megadoc.status }
  else
    match uploadLoop retries jitter fails (retries + 1) 1 0 0 [] with
    | (some a, issued, succeeded, sleeps) =>
        { outcome := UploadOutcome.runtimeError a
          uploadsIssued := issued
          uploadsSucceeded := succeeded
          sleeps := sleeps
          finalStatus := megadoc.status }
    | (none, issued, succeeded, sleeps) =>
        { outcome := UploadOutcome.completed
          uploadsIssued := issued
          uploadsSucceeded := succeeded
          sleeps := sleeps
          finalStatus := "SUCCESS" }

/-- C3 is false of the code: for a megadoc in status "SENDING" whose file
exists, with the default `retries = 3` and an object store that accepts
every upload, a single `upload_megadoc` call issues — and succeeds — 4
uploads of the same file (the loop body has no break after a successful
upload, so attempts 1 through retries+1 all re-upload), and only then
sets status "SUCCESS"; at-most-once semantics would allow at most 1. -/
theorem upload_megadoc_reuploads :
    (upload_megadoc
        { guid := "m1", filetype := ".txt", status := "SENDING", progress := 100 }
        true DatabaseConfig.retries_default (fun _ => 0) (fun _ => false)).uploadsSucceeded
      = 4
    ∧ ¬ ((upload_megadoc
        { guid := "m1", filetype := ".txt", status := "SENDING", progress := 100 }
        true DatabaseConfig.retries_default (fun _ => 0) (fun _ => false)).uploadsSucceeded
      ≤ 1)
    ∧ (upload_megadoc
        { guid := "m1", filetype := ".txt", status := "SENDING", progress := 100 }
        true DatabaseConfig.retries_default (fun _ => 0) (fun _ => false)).finalStatus
      = "SUCCESS"
    ∧ (upload_megadoc
        { guid := "m1", filetype := ".txt", status := "SENDING", progress := 100 }
        true DatabaseConfig.retries_default (fun _ => 0) (fun _ => false)).outcome
      = UploadOutcome.completed := by
  refine ⟨rfl, by decide, rfl, rfl⟩

end Orca
